import Mathlib

/-!
Verification of the data-synchronization layer of the uber-movement-prediction
dashboard (src/frontend/src/services/dataService.ts).

The embedding models:
* the response cache of `DataService` (`Map<string, {data, timestamp}>`) as an
  association list from endpoint strings to cache entries;
* `DataService.fetchWithRetry` as a pure function parametrised by the outcome
  of each network attempt (an oracle `Nat → Except FetchErr Js`), returning
  the call result, the updated cache, the number of network calls made and
  the list of backoff delays that were scheduled;
* `RealTimeManager` as a state machine (`HubState`) with the operations
  `subscribe`, the returned unsubscribe closure (`unsubscribe`), `stopAll`,
  and one timer `tick`.

JSON payloads are untyped (`any`) in the source, so they are modelled by a
single inductive `Js` type.  Time during a single call is modelled as a
constant `now` (the delays between retries do not influence any of the
verified properties).  Timer handles returned by `setInterval` are modelled
by a fresh-counter `nextTimer` so that distinct timers are distinguishable.
-/

/-- Untyped JSON-ish values, modelling the TypeScript `any` payloads.
`undef` models JavaScript `undefined` (the value of a function falling off
its end, e.g. `fetchWithRetry` invoked with `retries = 0`). -/
inductive Js where
  | nul : Js
  | bool : Bool → Js
  | num : Int → Js
  | str : String → Js
  | arr : List Js → Js
  | obj : List (String × Js) → Js
  | undef : Js

/-- Classified fetch failures: a non-2xx HTTP status
(`throw new Error("HTTP status ...")`), a network error (fetch rejected),
or a JSON parse error (`response.json()` rejected). -/
inductive FetchErr where
  | http : Nat → FetchErr
  | network : FetchErr
  | parse : FetchErr
deriving DecidableEq

/-- One entry of the `DataService` cache: `{ data: any; timestamp: number }`. -/
structure CacheEntry where
  data : Js
  timestamp : Nat

/-- The cache `Map<string, CacheEntry>`, as an association list keyed by the
endpoint string.  JavaScript `Map` keeps at most one entry per key. -/
def Cache := List (String × CacheEntry)

/-- `Map.get`: the value at the first (unique) occurrence of the key. -/
def lookupKey {α : Type} : List (String × α) → String → Option α
  | [], _ => none
  | p :: rest, k => if p.1 = k then some p.2 else lookupKey rest k

/-- `Map.set`: replace the entry in place if the key is present (JavaScript
`Map.set` keeps insertion order), otherwise append a new entry. -/
def setKey {α : Type} : List (String × α) → String → α → List (String × α)
  | [], k, v => [(k, v)]
  | p :: rest, k, v => if p.1 = k then (k, v) :: rest else p :: setKey rest k v

/-- `Map.delete`: remove the entry for the key (unique in a JavaScript map). -/
def removeKey {α : Type} : List (String × α) → String → List (String × α)
  | [], _ => []
  | p :: rest, k => if p.1 = k then removeKey rest k else p :: removeKey rest k

/-- Result of one `fetchWithRetry` call: the resolved value or the raised
error, the cache after the call, how many network calls were issued, and the
backoff delays (in ms) that were scheduled between attempts. -/
structure FetchResult where
  result : Except FetchErr Js
  cache : Cache
  networkCalls : Nat
  delays : List Nat

/-- The default `cacheTimeout = 5 * 60 * 1000` (5 minutes, in ms). -/
def defaultCacheTimeout : Nat := 5 * 60 * 1000

/-- The retry loop `for (let i = 0; i < retries; i++)` of
`DataService.fetchWithRetry`, at loop index `i` with `rem` iterations left
(`rem = retries - i`).  On a successful attempt the response is cached and
returned.  On a failed final attempt (`i === retries - 1`) the stale cache
entry captured at call start is returned when present, otherwise the error
is rethrown.  On a failed non-final attempt a delay of `2^i * 1000` ms is
scheduled and the loop continues.  Falling off the loop (`rem = 0`) resolves
with `undefined`, as in JavaScript. -/
def fetchLoop (cached : Option CacheEntry) (cache : Cache) (now : Nat)
    (endpoint : String) (attempts : Nat → Except FetchErr Js) (i : Nat) :
    Nat → FetchResult
  | 0 => { result := Except.ok Js.undef, cache := cache, networkCalls := 0, delays := [] }
  | rem + 1 =>
    match attempts i with
    | Except.ok d =>
      { result := Except.ok d
        cache := setKey cache endpoint { data := d, timestamp := now }
        networkCalls := 1
        delays := [] }
    | Except.error e =>
      if rem = 0 then
        match cached with
        | some c => { result := Except.ok c.data, cache := cache, networkCalls := 1, delays := [] }
        | none => { result := Except.error e, cache := cache, networkCalls := 1, delays := [] }
      else
        let r := fetchLoop cached cache now endpoint attempts (i + 1) rem
        { result := r.result
          cache := r.cache
          networkCalls := r.networkCalls + 1
          delays := (2 ^ i * 1000) :: r.delays }

/-- `DataService.fetchWithRetry(endpoint, retries = 3)`: return the cached
value if the entry is younger than `cacheTimeout`, otherwise run the retry
loop with the cache entry captured at call start as the stale fallback. -/
def fetchWithRetry (cache : Cache) (cacheTimeout now : Nat) (endpoint : String)
    (attempts : Nat → Except FetchErr Js) (retries : Nat := 3) : FetchResult :=
  match lookupKey cache endpoint with
  | some c =>
    if now - c.timestamp < cacheTimeout then
      { result := Except.ok c.data, cache := cache, networkCalls := 0, delays := [] }
    else
      fetchLoop (some c) cache now endpoint attempts 0 retries
  | none => fetchLoop none cache now endpoint attempts 0 retries

/-- Cache key of `getCities`. -/
def citiesEndpoint : String := "/cities"

/-- Cache key of `getPredictions(limit, city?)`: `limit` is always appended;
`city` only when it is truthy and not the literal string `all`. -/
def predictionsEndpoint (limit : Nat) (city : Option String) : String :=
  match city with
  | some c =>
    if c ≠ "" ∧ c ≠ "all" then
      "/predictions?limit=" ++ Nat.repr limit ++ "&city=" ++ c
    else
      "/predictions?limit=" ++ Nat.repr limit
  | none => "/predictions?limit=" ++ Nat.repr limit

/-- Cache key of `getMetrics`. -/
def metricsEndpoint : String := "/analytics/metrics"

/-- Cache key of `getHistoricalData(hours)`. -/
def historicalEndpoint (hours : Nat) : String :=
  "/analytics/historical?hours=" ++ Nat.repr hours

/-- Cache key of `getRealtimeTraffic`. -/
def realtimeEndpoint : String := "/traffic/realtime"

/-- Cache key of `getHealthStatus`. -/
def healthEndpoint : String := "/health"

/-- `DataService.getPredictions(limit = 50, city?)`. -/
def getPredictions (cache : Cache) (cacheTimeout now : Nat) (limit : Nat)
    (city : Option String) (attempts : Nat → Except FetchErr Js) : FetchResult :=
  fetchWithRetry cache cacheTimeout now (predictionsEndpoint limit city) attempts 3

/-- The five-zero-fields metrics fallback object built in `loadAllData` when
the metrics call rejects; `lastUpdated` is `new Date().toISOString()`, the
current time (ISO rendering modelled as the decimal rendering of `now`). -/
def metricsFallback (now : Nat) : Js :=
  Js.obj
    [("totalPredictions", Js.num 0), ("accuracy", Js.num 0),
     ("avgResponseTime", Js.num 0), ("activeSegments", Js.num 0),
     ("citiesMonitored", Js.num 0), ("lastUpdated", Js.str (Nat.repr now))]

/-- The health fallback `{ status: 'offline' }` of `loadAllData`. -/
def healthFallback : Js := Js.obj [("status", Js.str "offline")]

/-- `r.status === 'fulfilled' ? r.value : dflt` applied to one settled
promise of the `Promise.allSettled` batch. -/
def settledOr (r : Except FetchErr Js) (dflt : Js) : Js :=
  match r with
  | Except.ok v => v
  | Except.error _ => dflt

/-- The record returned by `DataService.loadAllData`. -/
structure DashboardData where
  cities : Js
  predictions : Js
  metrics : Js
  historical : Js
  realtime : Js
  health : Js

/-- `DataService.loadAllData()`: the six endpoint calls are issued
concurrently by `Promise.allSettled`; since they use six distinct cache
keys, each behaves as `fetchWithRetry` over the cache as of call time.
Each field independently falls back to its default when its call rejected.
`Promise.allSettled` never rejects, so the function always returns a record
(raising is impossible; the surrounding `try/catch` is unreachable). -/
def loadAllData (cache : Cache) (cacheTimeout now : Nat)
    (aCities aPred aMetrics aHist aReal aHealth : Nat → Except FetchErr Js) :
    DashboardData :=
  { cities :=
      settledOr (fetchWithRetry cache cacheTimeout now citiesEndpoint aCities 3).result
        (Js.arr [])
    predictions :=
      settledOr
        (fetchWithRetry cache cacheTimeout now (predictionsEndpoint 100 none) aPred 3).result
        (Js.arr [])
    metrics :=
      settledOr (fetchWithRetry cache cacheTimeout now metricsEndpoint aMetrics 3).result
        (metricsFallback now)
    historical :=
      settledOr
        (fetchWithRetry cache cacheTimeout now (historicalEndpoint 24) aHist 3).result
        (Js.arr [])
    realtime :=
      settledOr (fetchWithRetry cache cacheTimeout now realtimeEndpoint aReal 3).result
        (Js.arr [])
    health :=
      settledOr (fetchWithRetry cache cacheTimeout now healthEndpoint aHealth 3).result
        healthFallback }

/-- Field access on a `Js.obj`. -/
def jsField (j : Js) (k : String) : Option Js :=
  match j with
  | Js.obj fields => lookupKey fields k
  | _ => none

/-- State of `RealTimeManager`: `intervals : Map<string, Timeout>` (each
timer handle modelled as a fresh id paired with its tick period) and
`subscribers : Map<string, Set<callback>>` (callback references modelled as
`Nat` identifiers, a `Set` as a duplicate-free list in insertion order).
`nextTimer` is the allocator for fresh timer ids. -/
structure HubState where
  intervals : List (String × (Nat × Nat))
  subscribers : List (String × List Nat)
  nextTimer : Nat

/-- The initial manager state (both maps empty). -/
def hubInit : HubState := { intervals := [], subscribers := [], nextTimer := 0 }

/-- `Set.add`: append the element unless it is already present. -/
def setAdd (l : List Nat) (x : Nat) : List Nat :=
  if x ∈ l then l else l ++ [x]

/-- `RealTimeManager.subscribe(key, callback, intervalMs)`: create the
subscriber set if absent, add the callback, and start a timer for the key
only if none is running (later subscribers never change the interval). -/
def subscribe (st : HubState) (key : String) (cb : Nat) (intervalMs : Nat) : HubState :=
  let subs1 := setAdd ((lookupKey st.subscribers key).getD []) cb
  let subscribers1 := setKey st.subscribers key subs1
  if (lookupKey st.intervals key).isSome then
    { st with subscribers := subscribers1 }
  else
    { intervals := setKey st.intervals key (st.nextTimer, intervalMs)
      subscribers := subscribers1
      nextTimer := st.nextTimer + 1 }

/-- The unsubscribe closure returned by `subscribe`, for its captured
`(key, callback)` pair: delete the callback from the key's set; if the set
became empty, clear the key's timer and remove both map entries. -/
def unsubscribe (st : HubState) (key : String) (cb : Nat) : HubState :=
  match lookupKey st.subscribers key with
  | none => st
  | some subs =>
    let subs2 := subs.filter (fun c => c != cb)
    if subs2 = [] then
      { st with
          intervals := removeKey st.intervals key
          subscribers := removeKey st.subscribers key }
    else
      { st with subscribers := setKey st.subscribers key subs2 }

/-- `RealTimeManager.stopAll()`: clear every timer and every subscriber set. -/
def stopAll (st : HubState) : HubState :=
  { intervals := [], subscribers := [], nextTimer := st.nextTimer }

/-- The stream keys handled by the `switch (key)` inside the tick closure. -/
def recognizedKeys : List String := ["predictions", "metrics", "realtime", "health"]

/-- `subs.forEach(cb => cb(data))`: invoke the callbacks in insertion order;
a callback that throws aborts the iteration (the exception propagates out of
`forEach` into the tick's `catch`), so later callbacks are not invoked.
Returns the list of callbacks actually invoked. -/
def notifyAll (throws : Nat → Bool) : List Nat → List Nat
  | [] => []
  | cb :: rest => if throws cb then [cb] else cb :: notifyAll throws rest

/-- Outcome of one timer tick: whether a `DataService` call was made, and
which callbacks were invoked. -/
structure TickResult where
  fetched : Bool
  delivered : List Nat
deriving DecidableEq

/-- One tick of the timer for `key`: an unrecognized key hits the `default:
return` branch before any fetch or notification; for a recognized key a
`DataService` call is made (`fetchOutcome` is its settled result) and on
success the value is fanned out to the key's subscribers via `forEach`.
A rejected fetch is caught and logged; no callback runs. -/
def tick (st : HubState) (key : String) (fetchOutcome : Except FetchErr Js)
    (throws : Nat → Bool) : TickResult :=
  if key ∈ recognizedKeys then
    match fetchOutcome with
    | Except.error _ => { fetched := true, delivered := [] }
    | Except.ok _ =>
      match lookupKey st.subscribers key with
      | none => { fetched := true, delivered := [] }
      | some subs => { fetched := true, delivered := notifyAll throws subs }
  else
    { fetched := false, delivered := [] }

/-- Operations a client can perform on the manager. -/
inductive HubOp where
  | sub : String → Nat → Nat → HubOp
  | unsub : String → Nat → HubOp
  | stop : HubOp

/-- Interpret one operation. -/
def applyOp (st : HubState) : HubOp → HubState
  | HubOp.sub k cb i => subscribe st k cb i
  | HubOp.unsub k cb => unsubscribe st k cb
  | HubOp.stop => stopAll st

/-- Interpret a sequence of operations, left to right. -/
def applyOps (st : HubState) (ops : List HubOp) : HubState :=
  ops.foldl applyOp st

/-- The registry invariant of the spec: a stream key has a timer iff its
subscriber set is non-empty. -/
def timerIffSubs (st : HubState) : Prop :=
  ∀ k, (lookupKey st.intervals k).isSome = true ↔
    ∃ l, lookupKey st.subscribers k = some l ∧ l ≠ []

/-- Full well-formedness: the registry invariant, timer ids below the
allocator, and duplicate-free subscriber sets. -/
def HubInv (st : HubState) : Prop :=
  timerIffSubs st ∧
  (∀ k id i, lookupKey st.intervals k = some (id, i) → id < st.nextTimer) ∧
  (∀ k l, lookupKey st.subscribers k = some l → l.Nodup)

/-! ### Association-map lemmas -/

theorem lookupKey_setKey {α : Type} (c : List (String × α)) (k k2 : String) (v : α) :
    lookupKey (setKey c k v) k2 = if k = k2 then some v else lookupKey c k2 := by
  induction c with
  | nil => simp [setKey, lookupKey]
  | cons p rest ih =>
    by_cases hp : p.1 = k
    · simp only [setKey, if_pos hp, lookupKey]
      by_cases hk : k = k2
      · simp [hk]
      · simp [hk, hp, lookupKey]
    · simp only [setKey, if_neg hp, lookupKey]
      by_cases hp2 : p.1 = k2
      · have hk : ¬k = k2 := fun h => hp (h ▸ hp2)
        simp [hp2, hk]
      · simp [hp2, ih]

theorem lookupKey_removeKey {α : Type} (c : List (String × α)) (k k2 : String) :
    lookupKey (removeKey c k) k2 = if k = k2 then none else lookupKey c k2 := by
  induction c with
  | nil => simp [removeKey, lookupKey]
  | cons p rest ih =>
    by_cases hp : p.1 = k
    · simp only [removeKey, if_pos hp, ih, lookupKey]
      by_cases hk : k = k2
      · simp [hk]
      · have hp2 : ¬p.1 = k2 := fun h => hk (hp.symm.trans h ▸ rfl)
        simp [hk, hp2]
    · simp only [removeKey, if_neg hp, lookupKey]
      by_cases hp2 : p.1 = k2
      · have hk : ¬k = k2 := fun h => hp (h ▸ hp2)
        simp [hp2, hk]
      · simp [hp2, ih]

theorem setKey_of_lookup_self {α : Type} (c : List (String × α)) (k : String) (v : α)
    (h : lookupKey c k = some v) : setKey c k v = c := by
  induction c with
  | nil => simp [lookupKey] at h
  | cons p rest ih =>
    by_cases hp : p.1 = k
    · simp only [lookupKey, if_pos hp] at h
      obtain ⟨h1, h2⟩ := p
      cases hp
      cases h
      simp [setKey]
    · simp only [lookupKey, if_neg hp] at h
      simp [setKey, hp, ih h]

/-! ### Retry-loop lemmas -/

theorem fetchLoop_fail_some (c : CacheEntry) (cache : Cache) (now : Nat) (endpoint : String)
    (attempts : Nat → Except FetchErr Js) :
    ∀ rem i, 0 < rem → (∀ t, t < rem → ∃ e, attempts (i + t) = Except.error e) →
      (fetchLoop (some c) cache now endpoint attempts i rem).result = Except.ok c.data := by
  intro rem
  induction rem with
  | zero => intro i h hf; omega
  | succ r ih =>
    intro i hrem hf
    obtain ⟨e, he⟩ := hf 0 (Nat.succ_pos r)
    have he2 : attempts i = Except.error e := by simpa using he
    by_cases hr : r = 0
    · subst hr
      simp [fetchLoop, he2]
    · simp only [fetchLoop, he2, if_neg hr]
      exact ih (i + 1) (Nat.pos_of_ne_zero hr) (fun t ht => by
        obtain ⟨e2, he3⟩ := hf (t + 1) (by omega)
        exact ⟨e2, by rwa [show i + (t + 1) = i + 1 + t by omega] at he3⟩)

theorem fetchLoop_fail_none (cache : Cache) (now : Nat) (endpoint : String)
    (attempts : Nat → Except FetchErr Js) :
    ∀ rem i, 0 < rem → (∀ t, t < rem → ∃ e, attempts (i + t) = Except.error e) →
      ∃ e, (fetchLoop none cache now endpoint attempts i rem).result = Except.error e := by
  intro rem
  induction rem with
  | zero => intro i h hf; omega
  | succ r ih =>
    intro i hrem hf
    obtain ⟨e, he⟩ := hf 0 (Nat.succ_pos r)
    have he2 : attempts i = Except.error e := by simpa using he
    by_cases hr : r = 0
    · subst hr
      exact ⟨e, by simp [fetchLoop, he2]⟩
    · simp only [fetchLoop, he2, if_neg hr]
      exact ih (i + 1) (Nat.pos_of_ne_zero hr) (fun t ht => by
        obtain ⟨e2, he3⟩ := hf (t + 1) (by omega)
        exact ⟨e2, by rwa [show i + (t + 1) = i + 1 + t by omega] at he3⟩)


theorem fetchLoop_error_inv (cached : Option CacheEntry) (cache : Cache) (now : Nat)
    (endpoint : String) (attempts : Nat → Except FetchErr Js) :
    ∀ rem i e, (fetchLoop cached cache now endpoint attempts i rem).result = Except.error e →
      cached = none ∧ ∀ t, t < rem → ∃ e2, attempts (i + t) = Except.error e2 := by
  intro rem
  induction rem with
  | zero => intro i e h; simp [fetchLoop] at h
  | succ r ih =>
    intro i e h
    rcases hA : attempts i with e0 | d
    · by_cases hr : r = 0
      · subst hr
        rcases hc : cached with _ | c
        · refine ⟨rfl, fun t ht => ?_⟩
          have ht0 : t = 0 := by omega
          subst ht0
          exact ⟨e0, by simpa using hA⟩
        · subst hc
          simp [fetchLoop, hA] at h
      · have hres : (fetchLoop cached cache now endpoint attempts i (r + 1)).result
            = (fetchLoop cached cache now endpoint attempts (i + 1) r).result := by
          simp [fetchLoop, hA, hr]
        rw [hres] at h
        obtain ⟨hc, hall⟩ := ih (i + 1) e h
        refine ⟨hc, fun t ht => ?_⟩
        rcases t with _ | s
        · exact ⟨e0, by simpa using hA⟩
        · obtain ⟨e2, he2⟩ := hall s (by omega)
          exact ⟨e2, by rwa [show i + 1 + s = i + (s + 1) by omega] at he2⟩
    · simp [fetchLoop, hA] at h

theorem fetchLoop_delays (cached : Option CacheEntry) (cache : Cache) (now : Nat)
    (endpoint : String) (attempts : Nat → Except FetchErr Js) :
    ∀ rem i, ∃ n, (fetchLoop cached cache now endpoint attempts i rem).delays
      = (List.range n).map (fun t => 2 ^ (i + t) * 1000) := by
  intro rem
  induction rem with
  | zero => intro i; exact ⟨0, by simp [fetchLoop]⟩
  | succ r ih =>
    intro i
    rcases hA : attempts i with e0 | d
    · by_cases hr : r = 0
      · subst hr
        rcases cached with _ | c <;> exact ⟨0, by simp [fetchLoop, hA]⟩
      · obtain ⟨n, hn⟩ := ih (i + 1)
        refine ⟨n + 1, ?_⟩
        have hL : (fetchLoop cached cache now endpoint attempts i (r + 1)).delays
            = 2 ^ i * 1000 :: (fetchLoop cached cache now endpoint attempts (i + 1) r).delays := by
          simp [fetchLoop, hA, hr]
        rw [hL, hn, List.range_succ_eq_map, List.map_cons, List.map_map]
        refine congrArg₂ List.cons (by simp) (List.map_congr_left ?_).symm
        intro t ht
        simp only [Function.comp]
        rw [show i + (t + 1) = i + 1 + t by omega]
    · exact ⟨0, by simp [fetchLoop, hA]⟩

/-! ### Subscription-hub lemmas -/

theorem setAdd_ne_nil (l : List Nat) (x : Nat) : setAdd l x ≠ [] := by
  by_cases hx : x ∈ l
  · simp only [setAdd, if_pos hx]
    exact List.ne_nil_of_mem hx
  · simp [setAdd, hx]

theorem setAdd_nodup (l : List Nat) (x : Nat) (h : l.Nodup) : (setAdd l x).Nodup := by
  by_cases hx : x ∈ l
  · simpa [setAdd, hx] using h
  · simp [setAdd, hx, List.nodup_append, h]

theorem subscribe_intervals_of_timer (st : HubState) (key : String) (cb i : Nat)
    (h : (lookupKey st.intervals key).isSome = true) :
    (subscribe st key cb i).intervals = st.intervals := by
  simp [subscribe, h]

theorem subscribe_nextTimer_of_timer (st : HubState) (key : String) (cb i : Nat)
    (h : (lookupKey st.intervals key).isSome = true) :
    (subscribe st key cb i).nextTimer = st.nextTimer := by
  simp [subscribe, h]

theorem subscribe_intervals_of_no_timer (st : HubState) (key : String) (cb i : Nat)
    (h : lookupKey st.intervals key = none) :
    (subscribe st key cb i).intervals = setKey st.intervals key (st.nextTimer, i) := by
  simp [subscribe, h]

theorem subscribe_nextTimer_of_no_timer (st : HubState) (key : String) (cb i : Nat)
    (h : lookupKey st.intervals key = none) :
    (subscribe st key cb i).nextTimer = st.nextTimer + 1 := by
  simp [subscribe, h]

theorem subscribe_subscribers (st : HubState) (key : String) (cb i : Nat) :
    (subscribe st key cb i).subscribers
      = setKey st.subscribers key (setAdd ((lookupKey st.subscribers key).getD []) cb) := by
  by_cases h : (lookupKey st.intervals key).isSome = true
  · simp [subscribe, h]
  · simp [subscribe, h]

theorem hubInv_init : HubInv hubInit := by
  refine ⟨fun k => ?_, fun k id i h => ?_, fun k l h => ?_⟩ <;>
    simp [hubInit, lookupKey] at *

theorem hubInv_subscribe (st : HubState) (key : String) (cb i : Nat) (h : HubInv st) :
    HubInv (subscribe st key cb i) := by
  obtain ⟨hiff, hid, hnd⟩ := h
  have hsubnd : ((lookupKey st.subscribers key).getD []).Nodup := by
    rcases hl : lookupKey st.subscribers key with _ | l
    · simp
    · simpa using hnd key l hl
  by_cases ht : (lookupKey st.intervals key).isSome = true
  · refine ⟨fun k => ?_, fun k id i2 hk => ?_, fun k l hk => ?_⟩
    · rw [subscribe_intervals_of_timer st key cb i ht, subscribe_subscribers,
        lookupKey_setKey]
      by_cases hk : key = k
      · subst hk
        simp only [if_pos rfl]
        exact ⟨fun _ => ⟨_, rfl, setAdd_ne_nil _ _⟩, fun _ => ht⟩
      · simp only [if_neg hk]
        exact hiff k
    · rw [subscribe_intervals_of_timer st key cb i ht] at hk
      rw [subscribe_nextTimer_of_timer st key cb i ht]
      exact hid k id i2 hk
    · rw [subscribe_subscribers, lookupKey_setKey] at hk
      by_cases hkey : key = k
      · rw [if_pos hkey] at hk
        cases hk
        exact setAdd_nodup _ _ hsubnd
      · rw [if_neg hkey] at hk
        exact hnd k l hk
  · have ht2 : lookupKey st.intervals key = none := by
      rcases hl : lookupKey st.intervals key with _ | v
      · rfl
      · rw [hl] at ht; simp at ht
    refine ⟨fun k => ?_, fun k id i2 hk => ?_, fun k l hk => ?_⟩
    · rw [subscribe_intervals_of_no_timer st key cb i ht2, subscribe_subscribers,
        lookupKey_setKey, lookupKey_setKey]
      by_cases hk : key = k
      · simp only [if_pos hk]
        exact ⟨fun _ => ⟨_, rfl, setAdd_ne_nil _ _⟩, fun _ => rfl⟩
      · simp only [if_neg hk]
        exact hiff k
    · rw [subscribe_intervals_of_no_timer st key cb i ht2, lookupKey_setKey] at hk
      rw [subscribe_nextTimer_of_no_timer st key cb i ht2]
      by_cases hkey : key = k
      · rw [if_pos hkey] at hk
        cases hk
        omega
      · rw [if_neg hkey] at hk
        have := hid k id i2 hk
        omega
    · rw [subscribe_subscribers, lookupKey_setKey] at hk
      by_cases hkey : key = k
      · rw [if_pos hkey] at hk
        cases hk
        exact setAdd_nodup _ _ hsubnd
      · rw [if_neg hkey] at hk
        exact hnd k l hk

theorem unsubscribe_of_no_subs (st : HubState) (key : String) (cb : Nat)
    (h : lookupKey st.subscribers key = none) : unsubscribe st key cb = st := by
  simp [unsubscribe, h]

theorem unsubscribe_of_last (st : HubState) (key : String) (cb : Nat) (subs : List Nat)
    (h : lookupKey st.subscribers key = some subs)
    (h2 : subs.filter (fun c => c != cb) = []) :
    unsubscribe st key cb =
      { st with
          intervals := removeKey st.intervals key
          subscribers := removeKey st.subscribers key } := by
  simp [unsubscribe, h, h2]

theorem unsubscribe_of_rest (st : HubState) (key : String) (cb : Nat) (subs : List Nat)
    (h : lookupKey st.subscribers key = some subs)
    (h2 : subs.filter (fun c => c != cb) ≠ []) :
    unsubscribe st key cb =
      { st with
          subscribers := setKey st.subscribers key (subs.filter (fun c => c != cb)) } := by
  simp [unsubscribe, h, h2]

theorem hubInv_unsubscribe (st : HubState) (key : String) (cb : Nat) (h : HubInv st) :
    HubInv (unsubscribe st key cb) := by
  obtain ⟨hiff, hid, hnd⟩ := h
  rcases hl : lookupKey st.subscribers key with _ | subs
  · rw [unsubscribe_of_no_subs st key cb hl]
    exact ⟨hiff, hid, hnd⟩
  · by_cases h2 : subs.filter (fun c => c != cb) = []
    · rw [unsubscribe_of_last st key cb subs hl h2]
      refine ⟨fun k => ?_, fun k id i2 hk => ?_, fun k l hk => ?_⟩
      · show (lookupKey (removeKey st.intervals key) k).isSome = true ↔ _
        rw [lookupKey_removeKey, lookupKey_removeKey]
        by_cases hk : key = k
        · simp [hk]
        · simp only [if_neg hk]
          exact hiff k
      · rw [show ({ st with
              intervals := removeKey st.intervals key
              subscribers := removeKey st.subscribers key } : HubState).intervals
            = removeKey st.intervals key from rfl, lookupKey_removeKey] at hk
        by_cases hkey : key = k
        · rw [if_pos hkey] at hk
          cases hk
        · rw [if_neg hkey] at hk
          exact hid k id i2 hk
      · rw [show ({ st with
              intervals := removeKey st.intervals key
              subscribers := removeKey st.subscribers key } : HubState).subscribers
            = removeKey st.subscribers key from rfl, lookupKey_removeKey] at hk
        by_cases hkey : key = k
        · rw [if_pos hkey] at hk
          cases hk
        · rw [if_neg hkey] at hk
          exact hnd k l hk
    · rw [unsubscribe_of_rest st key cb subs hl h2]
      have htimer : (lookupKey st.intervals key).isSome = true := by
        apply (hiff key).2
        refine ⟨subs, hl, ?_⟩
        intro hnil
        subst hnil
        simp at h2
      refine ⟨fun k => ?_, fun k id i2 hk => ?_, fun k l hk => ?_⟩
      · show (lookupKey st.intervals k).isSome = true ↔ _
        rw [show ({ st with
              subscribers := setKey st.subscribers key (subs.filter (fun c => c != cb)) }
              : HubState).subscribers
            = setKey st.subscribers key (subs.filter (fun c => c != cb)) from rfl,
          lookupKey_setKey]
        by_cases hkey : key = k
        · subst hkey
          simp only [if_pos rfl]
          exact ⟨fun _ => ⟨_, rfl, h2⟩, fun _ => htimer⟩
        · simp only [if_neg hkey]
          exact hiff k
      · exact hid k id i2 hk
      · rw [show ({ st with
              subscribers := setKey st.subscribers key (subs.filter (fun c => c != cb)) }
              : HubState).subscribers
            = setKey st.subscribers key (subs.filter (fun c => c != cb)) from rfl,
          lookupKey_setKey] at hk
        by_cases hkey : key = k
        · rw [if_pos hkey] at hk
          cases hk
          exact List.Nodup.filter _ (hnd key subs hl)
        · rw [if_neg hkey] at hk
          exact hnd k l hk

theorem hubInv_stopAll (st : HubState) : HubInv (stopAll st) := by
  refine ⟨fun k => ?_, fun k id i2 hk => ?_, fun k l hk => ?_⟩ <;>
    simp [stopAll, lookupKey] at *

theorem hubInv_applyOp (st : HubState) (op : HubOp) (h : HubInv st) :
    HubInv (applyOp st op) := by
  rcases op with ⟨k, cb, i⟩ | ⟨k, cb⟩ | _
  · exact hubInv_subscribe st k cb i h
  · exact hubInv_unsubscribe st k cb h
  · exact hubInv_stopAll st

theorem hubInv_applyOps (ops : List HubOp) : ∀ st, HubInv st → HubInv (applyOps st ops) := by
  induction ops with
  | nil => intro st h; exact h
  | cons op rest ih =>
    intro st h
    exact ih (applyOp st op) (hubInv_applyOp st op h)

theorem notifyAll_no_throw (throws : Nat → Bool) :
    ∀ l, (∀ x ∈ l, throws x = false) → notifyAll throws l = l := by
  intro l
  induction l with
  | nil => intro _; rfl
  | cons a rest ih =>
    intro h
    have ha := h a (List.mem_cons_self a rest)
    simp [notifyAll, ha, ih (fun x hx => h x (List.mem_cons_of_mem a hx))]

theorem notifyAll_throw (throws : Nat → Bool) (c : Nat) (post : List Nat) :
    ∀ pre, (∀ x ∈ pre, throws x = false) → throws c = true →
      notifyAll throws (pre ++ c :: post) = pre ++ [c] := by
  intro pre
  induction pre with
  | nil => intro _ hc; simp [notifyAll, hc]
  | cons a rest ih =>
    intro hpre hc
    have ha := hpre a (List.mem_cons_self a rest)
    simp only [List.cons_append, notifyAll, ha, if_false, Bool.false_eq_true]
    exact congrArg (List.cons a) (ih (fun x hx => hpre x (List.mem_cons_of_mem a hx)) hc)

theorem applyOps_subs_same_key (key : String) :
    ∀ (ops : List (Nat × Nat)) (st : HubState),
      (lookupKey st.intervals key).isSome = true →
      (applyOps st (ops.map (fun p => HubOp.sub key p.1 p.2))).intervals = st.intervals := by
  intro ops
  induction ops with
  | nil => intro st h; rfl
  | cons p rest ih =>
    intro st h
    show (applyOps (subscribe st key p.1 p.2)
        (rest.map (fun p => HubOp.sub key p.1 p.2))).intervals = st.intervals
    rw [ih (subscribe st key p.1 p.2)
        (by rw [subscribe_intervals_of_timer st key p.1 p.2 h]; exact h),
      subscribe_intervals_of_timer st key p.1 p.2 h]

/-! ### Claim C1 -/

/-- A backend that fails its first three attempts with HTTP 500 and would
succeed on a fourth attempt. -/
def c1Attempts : Nat → Except FetchErr Js :=
  fun i => if i < 3 then Except.error (FetchErr.http 500) else Except.ok (Js.str "payload")

/-- Claim C1, counterexample: with the default configuration (`retries = 3`)
the retry loop makes exactly three total attempts; when the backend fails
all three and would succeed on a fourth attempt (`c1Attempts 3` succeeds),
the caller does not receive the successful value — with an empty cache the
call rethrows the HTTP 500 error. -/
theorem c1_counterexample :
    c1Attempts 3 = Except.ok (Js.str "payload") ∧
    (fetchWithRetry [] defaultCacheTimeout 0 (predictionsEndpoint 50 none) c1Attempts 3).result
      = Except.error (FetchErr.http 500) := by
  exact ⟨rfl, rfl⟩

/-- Claim C1, amended: with the default retry configuration the code makes
at most three total attempts.  If the backend fails the first two attempts
and succeeds on the third (final) attempt, the caller receives the
successful value and no error is raised; a value the backend would only
deliver on a fourth attempt is never requested. -/
theorem c1_amended (e0 e1 : FetchErr) (v : Js) (attempts : Nat → Except FetchErr Js)
    (now : Nat) (endpoint : String)
    (h0 : attempts 0 = Except.error e0) (h1 : attempts 1 = Except.error e1)
    (h2 : attempts 2 = Except.ok v) :
    (fetchWithRetry [] defaultCacheTimeout now endpoint attempts 3).result = Except.ok v ∧
    (fetchWithRetry [] defaultCacheTimeout now endpoint attempts 3).networkCalls = 3 := by
  constructor <;> simp [fetchWithRetry, lookupKey, fetchLoop, h0, h1, h2]

/-- Witness for `c1_amended` at a concrete backend failing twice then
succeeding. -/
def c1WitnessAttempts : Nat → Except FetchErr Js :=
  fun i => if i < 2 then Except.error FetchErr.network else Except.ok (Js.num 9)

theorem c1_witness :
    (fetchWithRetry [] defaultCacheTimeout 0 "/cities" c1WitnessAttempts 3).result
      = Except.ok (Js.num 9) ∧
    (fetchWithRetry [] defaultCacheTimeout 0 "/cities" c1WitnessAttempts 3).networkCalls = 3 :=
  c1_amended FetchErr.network FetchErr.network (Js.num 9) c1WitnessAttempts 0 "/cities"
    rfl rfl rfl

/-! ### Claim C8 -/

/-- Claim C8: every delay scheduled after a failed non-final attempt `i`
(0-indexed) equals `2^i * 1000` ms — positionally, the `j`-th scheduled
delay of a `fetchWithRetry` call is `2^j * 1000` ms. -/
theorem c8_backoff (cache : Cache) (cacheTimeout now : Nat) (endpoint : String)
    (attempts : Nat → Except FetchErr Js) (retries j d : Nat)
    (h : (fetchWithRetry cache cacheTimeout now endpoint attempts retries).delays.get? j
      = some d) :
    d = 2 ^ j * 1000 := by
  have key : ∀ (cached : Option CacheEntry),
      (fetchLoop cached cache now endpoint attempts 0 retries).delays.get? j = some d →
      d = 2 ^ j * 1000 := by
    intro cached hh
    obtain ⟨n, hn⟩ := fetchLoop_delays cached cache now endpoint attempts retries 0
    rw [hn, List.get?_map] at hh
    by_cases hj : j < n
    · rw [List.get?_range hj] at hh
      rw [show ((some j).map (fun t => 2 ^ (0 + t) * 1000) : Option Nat)
          = some (2 ^ (0 + j) * 1000) from rfl, Option.some_inj] at hh
      simpa using hh.symm
    · rw [List.get?_eq_none.2 (by simpa using Nat.le_of_not_lt hj)] at hh
      simp at hh
  rcases hL : lookupKey cache endpoint with _ | c
  · simp only [fetchWithRetry, hL] at h
    exact key none h
  · simp only [fetchWithRetry, hL] at h
    by_cases hfresh : now - c.timestamp < cacheTimeout
    · rw [if_pos hfresh] at h
      simp at h
    · rw [if_neg hfresh] at h
      exact key (some c) h

/-- A backend that fails every attempt with a network error. -/
def failAttempts : Nat → Except FetchErr Js := fun _ => Except.error FetchErr.network

theorem c8_witness :
    (fetchWithRetry [] defaultCacheTimeout 0 "/health" failAttempts 3).delays.get? 1
        = some 2000 ∧
    2000 = 2 ^ 1 * 1000 :=
  ⟨rfl, c8_backoff [] defaultCacheTimeout 0 "/health" failAttempts 3 1 2000 rfl⟩

/-! ### Claim C4 -/

/-- Claim C4: when every retry attempt fails, a cache entry present at call
start (of any age) is returned and no error is raised; with no cache entry
the call raises a classified error.  Conversely, an error is surfaced only
when no cache entry exists and every attempt failed. -/
theorem c4_stale_fallback :
    (∀ cache cacheTimeout now endpoint attempts retries entry, 0 < retries →
      (∀ i, i < retries → ∃ e, attempts i = Except.error e) →
      lookupKey cache endpoint = some entry →
      (fetchWithRetry cache cacheTimeout now endpoint attempts retries).result
        = Except.ok entry.data) ∧
    (∀ cache cacheTimeout now endpoint attempts retries, 0 < retries →
      (∀ i, i < retries → ∃ e, attempts i = Except.error e) →
      lookupKey cache endpoint = none →
      ∃ e, (fetchWithRetry cache cacheTimeout now endpoint attempts retries).result
        = Except.error e) ∧
    (∀ cache cacheTimeout now endpoint attempts retries e,
      (fetchWithRetry cache cacheTimeout now endpoint attempts retries).result
        = Except.error e →
      lookupKey cache endpoint = none ∧
        ∀ i, i < retries → ∃ e2, attempts i = Except.error e2) := by
  refine ⟨?_, ?_, ?_⟩
  · intro cache cacheTimeout now endpoint attempts retries entry hr hf hL
    simp only [fetchWithRetry, hL]
    by_cases hfresh : now - entry.timestamp < cacheTimeout
    · simp [hfresh]
    · rw [if_neg hfresh]
      exact fetchLoop_fail_some entry cache now endpoint attempts retries 0 hr
        (fun t ht => by simpa using hf t ht)
  · intro cache cacheTimeout now endpoint attempts retries hr hf hL
    simp only [fetchWithRetry, hL]
    exact fetchLoop_fail_none cache now endpoint attempts retries 0 hr
      (fun t ht => by simpa using hf t ht)
  · intro cache cacheTimeout now endpoint attempts retries e h
    rcases hL : lookupKey cache endpoint with _ | c
    · simp only [fetchWithRetry, hL] at h
      obtain ⟨hc, hall⟩ := fetchLoop_error_inv none cache now endpoint attempts retries 0 e h
      exact ⟨rfl, fun i hi => by simpa using hall i hi⟩
    · simp only [fetchWithRetry, hL] at h
      by_cases hfresh : now - c.timestamp < cacheTimeout
      · rw [if_pos hfresh] at h
        simp at h
      · rw [if_neg hfresh] at h
        obtain ⟨hc, _⟩ := fetchLoop_error_inv (some c) cache now endpoint attempts retries 0 e h
        exact absurd hc (by simp)

theorem c4_witness :
    (fetchWithRetry [("/cities", { data := Js.num 1, timestamp := 0 })] defaultCacheTimeout
        400000 "/cities" failAttempts 3).result = Except.ok (Js.num 1) ∧
    ∃ e, (fetchWithRetry [] defaultCacheTimeout 0 "/health" failAttempts 3).result
        = Except.error e :=
  ⟨c4_stale_fallback.1 _ _ _ _ _ _ { data := Js.num 1, timestamp := 0 } (by omega)
      (fun i _ => ⟨FetchErr.network, rfl⟩) rfl,
   c4_stale_fallback.2.1 _ _ _ _ _ _ (by omega)
      (fun i _ => ⟨FetchErr.network, rfl⟩) rfl⟩

/-! ### Claim C3 -/

/-- Claim C3: a cache entry strictly younger than the cache timeout is
returned as-is with zero network calls; in particular, two back-to-back
`getPredictions(50)` calls within the freshness window (the backend
answering the first call's first attempt) issue exactly one HTTP call in
total and both resolve to the same value. -/
theorem c3_fresh_cache :
    (∀ cache cacheTimeout now endpoint attempts retries entry,
      lookupKey cache endpoint = some entry →
      now - entry.timestamp < cacheTimeout →
      (fetchWithRetry cache cacheTimeout now endpoint attempts retries).result
          = Except.ok entry.data ∧
      (fetchWithRetry cache cacheTimeout now endpoint attempts retries).networkCalls = 0) ∧
    (∀ t1 t2 : Nat, ∀ v : Js, ∀ a1 a2 : Nat → Except FetchErr Js,
      a1 0 = Except.ok v → t2 - t1 < defaultCacheTimeout →
      (getPredictions [] defaultCacheTimeout t1 50 none a1).result = Except.ok v ∧
      (getPredictions [] defaultCacheTimeout t1 50 none a1).networkCalls = 1 ∧
      (getPredictions (getPredictions [] defaultCacheTimeout t1 50 none a1).cache
          defaultCacheTimeout t2 50 none a2).result = Except.ok v ∧
      (getPredictions (getPredictions [] defaultCacheTimeout t1 50 none a1).cache
          defaultCacheTimeout t2 50 none a2).networkCalls = 0) := by
  constructor
  · intro cache cacheTimeout now endpoint attempts retries entry hL hfresh
    constructor <;> simp [fetchWithRetry, hL, hfresh]
  · intro t1 t2 v a1 a2 h0 hfresh
    have h1 : getPredictions [] defaultCacheTimeout t1 50 none a1
        = { result := Except.ok v,
            cache := [(predictionsEndpoint 50 none, { data := v, timestamp := t1 })],
            networkCalls := 1, delays := [] } := by
      simp [getPredictions, fetchWithRetry, lookupKey, fetchLoop, h0, setKey]
    have hlook : lookupKey
        [(predictionsEndpoint 50 none, ({ data := v, timestamp := t1 } : CacheEntry))]
        (predictionsEndpoint 50 none) = some { data := v, timestamp := t1 } := by
      simp [lookupKey]
    refine ⟨by rw [h1], by rw [h1], ?_, ?_⟩
    · rw [h1]
      simp [getPredictions, fetchWithRetry, hlook, hfresh]
    · rw [h1]
      simp [getPredictions, fetchWithRetry, hlook, hfresh]

/-- A backend that always answers immediately. -/
def okAttempts : Nat → Except FetchErr Js := fun _ => Except.ok (Js.num 7)

theorem c3_witness :
    (fetchWithRetry [("/health", { data := Js.num 5, timestamp := 10 })] defaultCacheTimeout
        11 "/health" failAttempts 3).result = Except.ok (Js.num 5) ∧
    (getPredictions (getPredictions [] defaultCacheTimeout 0 50 none okAttempts).cache
        defaultCacheTimeout 1 50 none failAttempts).networkCalls = 0 :=
  ⟨(c3_fresh_cache.1 [("/health", { data := Js.num 5, timestamp := 10 })] defaultCacheTimeout
      11 "/health" failAttempts 3 { data := Js.num 5, timestamp := 10 }
      (by simp [lookupKey]) (by decide)).1,
   (c3_fresh_cache.2 0 1 (Js.num 7) okAttempts failAttempts rfl (by decide)).2.2.2⟩

/-! ### Claim C5 -/

/-- Claim C5, counterexample: when the metrics call fails, `loadAllData`
does not substitute an all-zero Metrics object — the `lastUpdated` field of
the fallback carries the current timestamp (here `now = 7`), which is
neither the number 0 nor a zero string. -/
theorem c5_counterexample :
    jsField (loadAllData [] defaultCacheTimeout 7 failAttempts failAttempts failAttempts
        failAttempts failAttempts failAttempts).metrics "lastUpdated"
      = some (Js.str "7") ∧
    Js.str "7" ≠ Js.num 0 ∧ Js.str "7" ≠ Js.str "0" := by
  refine ⟨rfl, fun h => Js.noConfusion h, fun h => ?_⟩
  injection h with h2
  exact absurd h2 (by decide)

/-- Claim C5, amended: `loadAllData` never raises; each field equals the
endpoint's value when its call succeeded and otherwise its fallback:
`[]` for cities, predictions, historical and realtime; a Metrics object
whose five numeric fields are zero and whose `lastUpdated` is the current
timestamp; `{status: 'offline'}` for health. -/
theorem c5_amended (cache : Cache) (cacheTimeout now : Nat)
    (aC aP aM aH aR aHl : Nat → Except FetchErr Js) :
    ((∀ v, (fetchWithRetry cache cacheTimeout now citiesEndpoint aC 3).result
          = Except.ok v →
        (loadAllData cache cacheTimeout now aC aP aM aH aR aHl).cities = v) ∧
     (∀ e, (fetchWithRetry cache cacheTimeout now citiesEndpoint aC 3).result
          = Except.error e →
        (loadAllData cache cacheTimeout now aC aP aM aH aR aHl).cities = Js.arr [])) ∧
    ((∀ v, (fetchWithRetry cache cacheTimeout now (predictionsEndpoint 100 none) aP 3).result
          = Except.ok v →
        (loadAllData cache cacheTimeout now aC aP aM aH aR aHl).predictions = v) ∧
     (∀ e, (fetchWithRetry cache cacheTimeout now (predictionsEndpoint 100 none) aP 3).result
          = Except.error e →
        (loadAllData cache cacheTimeout now aC aP aM aH aR aHl).predictions = Js.arr [])) ∧
    ((∀ v, (fetchWithRetry cache cacheTimeout now metricsEndpoint aM 3).result
          = Except.ok v →
        (loadAllData cache cacheTimeout now aC aP aM aH aR aHl).metrics = v) ∧
     (∀ e, (fetchWithRetry cache cacheTimeout now metricsEndpoint aM 3).result
          = Except.error e →
        (loadAllData cache cacheTimeout now aC aP aM aH aR aHl).metrics
          = metricsFallback now)) ∧
    ((∀ v, (fetchWithRetry cache cacheTimeout now (historicalEndpoint 24) aH 3).result
          = Except.ok v →
        (loadAllData cache cacheTimeout now aC aP aM aH aR aHl).historical = v) ∧
     (∀ e, (fetchWithRetry cache cacheTimeout now (historicalEndpoint 24) aH 3).result
          = Except.error e →
        (loadAllData cache cacheTimeout now aC aP aM aH aR aHl).historical = Js.arr [])) ∧
    ((∀ v, (fetchWithRetry cache cacheTimeout now realtimeEndpoint aR 3).result
          = Except.ok v →
        (loadAllData cache cacheTimeout now aC aP aM aH aR aHl).realtime = v) ∧
     (∀ e, (fetchWithRetry cache cacheTimeout now realtimeEndpoint aR 3).result
          = Except.error e →
        (loadAllData cache cacheTimeout now aC aP aM aH aR aHl).realtime = Js.arr [])) ∧
    ((∀ v, (fetchWithRetry cache cacheTimeout now healthEndpoint aHl 3).result
          = Except.ok v →
        (loadAllData cache cacheTimeout now aC aP aM aH aR aHl).health = v) ∧
     (∀ e, (fetchWithRetry cache cacheTimeout now healthEndpoint aHl 3).result
          = Except.error e →
        (loadAllData cache cacheTimeout now aC aP aM aH aR aHl).health = healthFallback)) := by
  refine ⟨⟨?_, ?_⟩, ⟨?_, ?_⟩, ⟨?_, ?_⟩, ⟨?_, ?_⟩, ⟨?_, ?_⟩, ⟨?_, ?_⟩⟩ <;>
    (intro x h; simp [loadAllData, settledOr, h])

theorem c5_witness :
    (loadAllData [] defaultCacheTimeout 7 okAttempts failAttempts failAttempts failAttempts
        failAttempts failAttempts).cities = Js.num 7 ∧
    (loadAllData [] defaultCacheTimeout 7 okAttempts failAttempts failAttempts failAttempts
        failAttempts failAttempts).metrics = metricsFallback 7 :=
  ⟨(c5_amended [] defaultCacheTimeout 7 okAttempts failAttempts failAttempts failAttempts
      failAttempts failAttempts).1.1 (Js.num 7) rfl,
   (c5_amended [] defaultCacheTimeout 7 okAttempts failAttempts failAttempts failAttempts
      failAttempts failAttempts).2.2.1.2 FetchErr.network rfl⟩

/-! ### Claim C2 -/

/-- The callback behaviour of the C2 counterexample: callback 1 throws. -/
def c2Throws : Nat → Bool := fun c => c == 1

/-- Claim C2, counterexample: with callbacks 1 and 2 registered for
`metrics` and callback 1 throwing, a tick with a successful fetch invokes
only callback 1 — callback 2 is registered but never receives the value,
so one callback's exception does prevent delivery to the rest. -/
theorem c2_counterexample :
    lookupKey (subscribe (subscribe hubInit "metrics" 1 5000) "metrics" 2 5000).subscribers
        "metrics" = some [1, 2] ∧
    (tick (subscribe (subscribe hubInit "metrics" 1 5000) "metrics" 2 5000) "metrics"
        (Except.ok (Js.num 3)) c2Throws).delivered = [1] ∧
    ¬ (2 ∈ (tick (subscribe (subscribe hubInit "metrics" 1 5000) "metrics" 2 5000) "metrics"
        (Except.ok (Js.num 3)) c2Throws).delivered) := by
  refine ⟨rfl, rfl, by decide⟩

/-- Claim C2, amended: on a tick with a successful fetch, delivery proceeds
in registration order and stops at the first throwing callback — callbacks
before it and the throwing one itself are invoked, callbacks after it are
not (the exception is caught by the tick's handler, so the timer survives);
when no callback throws, every registered callback is invoked. -/
theorem c2_amended :
    (∀ st key v throws pre c post, key ∈ recognizedKeys →
       lookupKey st.subscribers key = some (pre ++ c :: post) →
       (∀ x ∈ pre, throws x = false) → throws c = true →
       (tick st key (Except.ok v) throws).delivered = pre ++ [c]) ∧
    (∀ st key v throws l, key ∈ recognizedKeys →
       lookupKey st.subscribers key = some l →
       (∀ x ∈ l, throws x = false) →
       (tick st key (Except.ok v) throws).delivered = l) := by
  constructor
  · intro st key v throws pre c post hkey hsubs hpre hc
    simp only [tick, if_pos hkey, hsubs]
    exact notifyAll_throw throws c post pre hpre hc
  · intro st key v throws l hkey hsubs hall
    simp only [tick, if_pos hkey, hsubs]
    exact notifyAll_no_throw throws l hall

theorem c2_witness :
    (tick (subscribe (subscribe hubInit "metrics" 1 5000) "metrics" 2 5000) "metrics"
        (Except.ok (Js.num 3)) c2Throws).delivered = [1] :=
  c2_amended.1 (subscribe (subscribe hubInit "metrics" 1 5000) "metrics" 2 5000) "metrics"
    (Js.num 3) c2Throws [] 1 [2] (by decide) rfl (by simp) rfl

/-! ### Claim C6 -/

/-- Claim C6: any number of `subscribe` calls for the same key (with
arbitrary callbacks and intervals) leaves exactly one timer registered for
that key, and its interval is the one supplied by the first subscriber
(timer id 0 is the one allocated at the first call). -/
theorem c6_single_timer (key : String) (cb1 int1 : Nat) (rest : List (Nat × Nat)) :
    ((applyOps hubInit (HubOp.sub key cb1 int1 ::
        rest.map (fun p => HubOp.sub key p.1 p.2))).intervals.filter
          (fun e => e.1 == key)).length = 1 ∧
    lookupKey (applyOps hubInit (HubOp.sub key cb1 int1 ::
        rest.map (fun p => HubOp.sub key p.1 p.2))).intervals key = some (0, int1) := by
  have h1 : (subscribe hubInit key cb1 int1).intervals = [(key, (0, int1))] := by
    simp [subscribe, hubInit, lookupKey, setKey]
  have h2 : (applyOps hubInit (HubOp.sub key cb1 int1 ::
      rest.map (fun p => HubOp.sub key p.1 p.2))).intervals = [(key, (0, int1))] := by
    show (applyOps (subscribe hubInit key cb1 int1)
        (rest.map (fun p => HubOp.sub key p.1 p.2))).intervals = [(key, (0, int1))]
    rw [applyOps_subs_same_key key rest (subscribe hubInit key cb1 int1)
        (by rw [h1]; simp [lookupKey]), h1]
  rw [h2]
  constructor
  · simp [List.filter]
  · simp [lookupKey]

/-! ### Claim C7 -/

/-- Claim C7: after any sequence of subscribe/unsubscribe/stopAll operations
a stream key has a timer iff its subscriber set is non-empty; unsubscribing
the sole callback of a key clears its timer and removes the key; a
subsequent subscribe installs a freshly allocated timer (`st.nextTimer`),
which differs from every timer id already registered. -/
theorem c7_registry_invariant :
    (∀ ops : List HubOp, timerIffSubs (applyOps hubInit ops)) ∧
    (∀ st key cb, lookupKey st.subscribers key = some [cb] →
       lookupKey (unsubscribe st key cb).intervals key = none ∧
       lookupKey (unsubscribe st key cb).subscribers key = none) ∧
    (∀ st key cb cb2 i2, lookupKey st.subscribers key = some [cb] →
       lookupKey (subscribe (unsubscribe st key cb) key cb2 i2).intervals key
         = some (st.nextTimer, i2)) ∧
    (∀ st key oldId oldI, HubInv st →
       lookupKey st.intervals key = some (oldId, oldI) → oldId ≠ st.nextTimer) := by
  refine ⟨?_, ?_, ?_, ?_⟩
  · exact fun ops => (hubInv_applyOps ops hubInit hubInv_init).1
  · intro st key cb h
    rw [unsubscribe_of_last st key cb [cb] h (by simp)]
    refine ⟨?_, ?_⟩
    · show lookupKey (removeKey st.intervals key) key = none
      rw [lookupKey_removeKey]
      simp
    · show lookupKey (removeKey st.subscribers key) key = none
      rw [lookupKey_removeKey]
      simp
  · intro st key cb cb2 i2 h
    rw [unsubscribe_of_last st key cb [cb] h (by simp)]
    have hnone : lookupKey (removeKey st.intervals key) key = none := by
      rw [lookupKey_removeKey]
      simp
    rw [subscribe_intervals_of_no_timer _ key cb2 i2 hnone]
    show lookupKey (setKey (removeKey st.intervals key) key (st.nextTimer, i2)) key
      = some (st.nextTimer, i2)
    rw [lookupKey_setKey]
    simp
  · intro st key oldId oldI hInv hL
    have := hInv.2.1 key oldId oldI hL
    omega

theorem c7_witness :
    lookupKey (unsubscribe (subscribe hubInit "metrics" 1 5000) "metrics" 1).intervals
        "metrics" = none ∧
    lookupKey (subscribe (unsubscribe (subscribe hubInit "metrics" 1 5000) "metrics" 1)
        "metrics" 2 7000).intervals "metrics"
      = some ((subscribe hubInit "metrics" 1 5000).nextTimer, 7000) :=
  ⟨(c7_registry_invariant.2.1 (subscribe hubInit "metrics" 1 5000) "metrics" 1 rfl).1,
   c7_registry_invariant.2.2.1 (subscribe hubInit "metrics" 1 5000) "metrics" 1 2 7000 rfl⟩

/-! ### Claim C9 -/

/-- Claim C9: for a key outside the recognized set, `subscribe` still
registers the callback and starts a live timer, but a tick for that key
makes no `DataService` call and invokes no callback; the timer persists
until unsubscribed (or `stopAll`), which clears it. -/
theorem c9_unknown_key (key : String) (hkey : key ∉ recognizedKeys) (cb intervalMs : Nat)
    (outcome : Except FetchErr Js) (throws : Nat → Bool) :
    (lookupKey (subscribe hubInit key cb intervalMs).intervals key).isSome = true ∧
    lookupKey (subscribe hubInit key cb intervalMs).subscribers key = some [cb] ∧
    tick (subscribe hubInit key cb intervalMs) key outcome throws
      = { fetched := false, delivered := [] } ∧
    lookupKey (unsubscribe (subscribe hubInit key cb intervalMs) key cb).intervals key
      = none ∧
    (stopAll (subscribe hubInit key cb intervalMs)).intervals = [] := by
  have hsub : (subscribe hubInit key cb intervalMs).subscribers = [(key, [cb])] := by
    simp [subscribe, hubInit, lookupKey, setAdd, setKey]
  have hint : (subscribe hubInit key cb intervalMs).intervals = [(key, (0, intervalMs))] := by
    simp [subscribe, hubInit, lookupKey, setKey]
  have hlook : lookupKey (subscribe hubInit key cb intervalMs).subscribers key = some [cb] := by
    rw [hsub]
    simp [lookupKey]
  refine ⟨?_, hlook, ?_, ?_, rfl⟩
  · rw [hint]
    simp [lookupKey]
  · simp [tick, hkey]
  · rw [unsubscribe_of_last _ key cb [cb] hlook (by simp)]
    show lookupKey (removeKey (subscribe hubInit key cb intervalMs).intervals key) key = none
    rw [lookupKey_removeKey]
    simp

theorem c9_witness :
    (lookupKey (subscribe hubInit "foo" 1 1000).intervals "foo").isSome = true ∧
    lookupKey (subscribe hubInit "foo" 1 1000).subscribers "foo" = some [1] ∧
    tick (subscribe hubInit "foo" 1 1000) "foo" (Except.ok Js.nul) (fun _ => false)
      = { fetched := false, delivered := [] } ∧
    lookupKey (unsubscribe (subscribe hubInit "foo" 1 1000) "foo" 1).intervals "foo" = none ∧
    (stopAll (subscribe hubInit "foo" 1 1000)).intervals = [] :=
  c9_unknown_key "foo" (by decide) 1 1000 (Except.ok Js.nul) (fun _ => false)

/-! ### Claim C10 -/

/-- Claim C10: subscribing the same callback reference twice for a key
stores it once in the (set-semantics) subscriber set; a timer exists after
the two subscriptions, and a single unsubscribe invocation removes the
callback entirely and destroys the key's timer even though the second
consumer's subscription is logically still active; a second unsubscribe
invocation leaves the state unchanged. -/
theorem c10_dup_callback (st : HubState) (key : String) (cb i1 i2 : Nat)
    (hs : lookupKey st.subscribers key = none)
    (hi : lookupKey st.intervals key = none) :
    lookupKey (subscribe (subscribe st key cb i1) key cb i2).subscribers key = some [cb] ∧
    (lookupKey (subscribe (subscribe st key cb i1) key cb i2).intervals key).isSome = true ∧
    lookupKey (unsubscribe (subscribe (subscribe st key cb i1) key cb i2) key cb).subscribers
        key = none ∧
    lookupKey (unsubscribe (subscribe (subscribe st key cb i1) key cb i2) key cb).intervals
        key = none ∧
    unsubscribe (unsubscribe (subscribe (subscribe st key cb i1) key cb i2) key cb) key cb
      = unsubscribe (subscribe (subscribe st key cb i1) key cb i2) key cb := by
  have h1s : (subscribe st key cb i1).subscribers = setKey st.subscribers key [cb] := by
    rw [subscribe_subscribers, hs]
    rfl
  have h1look : lookupKey (subscribe st key cb i1).subscribers key = some [cb] := by
    rw [h1s, lookupKey_setKey]
    simp
  have h2s : (subscribe (subscribe st key cb i1) key cb i2).subscribers
      = setKey (subscribe st key cb i1).subscribers key [cb] := by
    rw [subscribe_subscribers, h1look]
    simp [setAdd]
  have h2look : lookupKey (subscribe (subscribe st key cb i1) key cb i2).subscribers key
      = some [cb] := by
    rw [h2s, lookupKey_setKey]
    simp
  have h1ilook : (lookupKey (subscribe st key cb i1).intervals key).isSome = true := by
    rw [subscribe_intervals_of_no_timer st key cb i1 hi, lookupKey_setKey]
    simp
  have h2i : (subscribe (subscribe st key cb i1) key cb i2).intervals
      = (subscribe st key cb i1).intervals :=
    subscribe_intervals_of_timer _ key cb i2 h1ilook
  have hunsub := unsubscribe_of_last (subscribe (subscribe st key cb i1) key cb i2) key cb
      [cb] h2look (by simp)
  have hnone : lookupKey
      (unsubscribe (subscribe (subscribe st key cb i1) key cb i2) key cb).subscribers key
      = none := by
    rw [hunsub]
    show lookupKey
        (removeKey (subscribe (subscribe st key cb i1) key cb i2).subscribers key) key = none
    rw [lookupKey_removeKey]
    simp
  refine ⟨h2look, ?_, hnone, ?_, unsubscribe_of_no_subs _ key cb hnone⟩
  · rw [h2i]
    exact h1ilook
  · rw [hunsub]
    show lookupKey
        (removeKey (subscribe (subscribe st key cb i1) key cb i2).intervals key) key = none
    rw [lookupKey_removeKey]
    simp

theorem c10_witness :
    lookupKey (subscribe (subscribe hubInit "metrics" 1 5000) "metrics" 1 8000).subscribers
        "metrics" = some [1] ∧
    (lookupKey (subscribe (subscribe hubInit "metrics" 1 5000) "metrics" 1 8000).intervals
        "metrics").isSome = true ∧
    lookupKey (unsubscribe (subscribe (subscribe hubInit "metrics" 1 5000) "metrics" 1 8000)
        "metrics" 1).subscribers "metrics" = none ∧
    lookupKey (unsubscribe (subscribe (subscribe hubInit "metrics" 1 5000) "metrics" 1 8000)
        "metrics" 1).intervals "metrics" = none ∧
    unsubscribe (unsubscribe (subscribe (subscribe hubInit "metrics" 1 5000) "metrics" 1 8000)
        "metrics" 1) "metrics" 1
      = unsubscribe (subscribe (subscribe hubInit "metrics" 1 5000) "metrics" 1 8000)
        "metrics" 1 :=
  c10_dup_callback hubInit "metrics" 1 5000 8000 rfl rfl
